import Mathlib

/-!
Verification of the follower-report core of the insta-followers repository:
the report builder (`generate_report` in `app.py` and `main.py`), the delta
engine (`analyse_reports` in `main.py`, duplicated inline in `app.py`), the
report data model (`models/report.py`), the daily run guard
(`InstagramFollower.run` in `main.py`) and the profile cache lookup
(`models/user_profile_cache.py`).

Timestamps (`generated_at`, `now`, `expire_at`) are modelled as natural /
integer numbers; user ids are strings, as in the source.  Python sets are
modelled as duplicate-free lists (built with `List.dedup`); set difference
is `List.filter` on non-membership, which preserves the set semantics.
-/

namespace Insta

/-- A normalized user record: `User` in `models/user.py` with fields
`_id`, `username`, `full_name`, `profile_pic_url` (all strings). -/
structure User where
  id : String
  username : String
  full_name : String
  profile_pic_url : String
  deriving DecidableEq, Repr

/-- A user entry of a report: the user dict extended with the `type` list of
relationship tags, as built by the report builders. -/
structure TaggedUser where
  id : String
  username : String
  full_name : String
  profile_pic_url : String
  type : List String
  deriving DecidableEq, Repr

/-- The `stats` dict written by the delta engine when a previous report
exists.  `previous_report_date` stands for the `YYYY-MM-DD` rendering of the
previous report's `generated_at` (modelled by the timestamp itself). -/
structure Stats where
  new_followers_count : Nat
  lost_followers_count : Nat
  new_following_count : Nat
  unfollowed_count : Nat
  net_follower_change : Int
  net_following_change : Int
  previous_report_date : Nat
  deriving DecidableEq, Repr

/-- The report document (`Report` in `models/report.py`).  `stats = none`
models the empty dict the field is initialised with. -/
structure Report where
  id : String
  generated_at : Nat
  num_followers : Nat
  num_following : Nat
  users : List TaggedUser
  new_followers : List String
  lost_followers : List String
  new_following : List String
  unfollowed : List String
  stats : Option Stats
  deriving DecidableEq, Repr

/-- The fresh entry inserted for a user not yet in the working map:
`user_dict` with `type = []` (builder loop, first branch). -/
def mkTagged (u : User) : TaggedUser :=
  { id := u.id, username := u.username, full_name := u.full_name,
    profile_pic_url := u.profile_pic_url, type := [] }

/-- One pass of the tag-adding statements of the builder loop: append
`"follower"` when the id is a follower id and the tag is not present yet,
then likewise for `"following"`. -/
def tagStep (fids gids : List String) (tu : TaggedUser) : TaggedUser :=
  let t1 := if tu.id ∈ fids ∧ "follower" ∉ tu.type then tu.type ++ ["follower"] else tu.type
  let t2 := if tu.id ∈ gids ∧ "following" ∉ t1 then t1 ++ ["following"] else t1
  { tu with type := t2 }

/-- One iteration of the builder loop `for user in followers + following`:
insert the user into the working map if absent, then update the tags of the
entry with this user's id. -/
def processUser (fids gids : List String) (acc : List TaggedUser) (u : User) :
    List TaggedUser :=
  let acc2 := if acc.any (fun tu => tu.id = u.id) then acc else acc ++ [mkTagged u]
  acc2.map (fun tu => if tu.id = u.id then tagStep fids gids tu else tu)

/-- The deduplicated tagged user list of the report builder (identical in
`app.py` and `main.py`): fold the loop body over `followers ++ following`
starting from the empty map, with `follower_ids` / `following_ids` the id
sets of the two inputs. -/
def build_users (followers following : List User) : List TaggedUser :=
  (followers ++ following).foldl
    (processUser (followers.map User.id) (following.map User.id)) []

/-- The web report builder (`generate_report` in `app.py`): assembles the
report with `_id = str(generated_at)` and empty delta fields. -/
def generate_report (followers following : List User) (t : Nat) : Report :=
  { id := toString t
    generated_at := t
    num_followers := followers.length
    num_following := following.length
    users := build_users followers following
    new_followers := []
    lost_followers := []
    new_following := []
    unfollowed := []
    stats := none }

/-- The CLI report builder (`InstagramFollower.generate_report` in
`main.py`): same users computation, but the report's `_id` is left to the
dataclass default `field(default_factory=ObjectId)`, i.e. a fresh ObjectId
drawn at construction time; the draw is passed explicitly as `fresh`. -/
def generate_report_cli (followers following : List User) (t : Nat)
    (fresh : Nat) : Report :=
  { id := "ObjectId-" ++ toString fresh
    generated_at := t
    num_followers := followers.length
    num_following := following.length
    users := build_users followers following
    new_followers := []
    lost_followers := []
    new_following := []
    unfollowed := []
    stats := none }

/-- `Report.get_users_by_type`: the users whose `type` list contains the
given tag. -/
def get_users_by_type (r : Report) (t : String) : List TaggedUser :=
  r.users.filter (fun u => t ∈ u.type)

/-- `Report.get_user_ids_by_type`: the set of ids of users carrying the tag.
The comprehension `{user.get('_id') for user in ... if user.get('_id')}`
keeps only truthy ids, so empty-string ids are filtered out; the Python set
is modelled as a deduplicated list. -/
def get_user_ids_by_type (r : Report) (t : String) : List String :=
  (((get_users_by_type r t).filter (fun u => u.id ≠ "")).map TaggedUser.id).dedup

/-- The delta engine (`analyse_reports` in `main.py`, duplicated in
`app.py`): with no previous report it returns at once; otherwise it fills
the four set differences of tagged-id sets and the stats dict. -/
def analyse_reports (report : Report) (last_report : Option Report) : Report :=
  match last_report with
  | none => report
  | some last =>
    let current_followers := get_user_ids_by_type report "follower"
    let current_following := get_user_ids_by_type report "following"
    let previous_followers := get_user_ids_by_type last "follower"
    let previous_following := get_user_ids_by_type last "following"
    let nf := current_followers.filter (fun i => i ∉ previous_followers)
    let lf := previous_followers.filter (fun i => i ∉ current_followers)
    let ng := current_following.filter (fun i => i ∉ previous_following)
    let uf := previous_following.filter (fun i => i ∉ current_following)
    { report with
      new_followers := nf
      lost_followers := lf
      new_following := ng
      unfollowed := uf
      stats := some
        { new_followers_count := nf.length
          lost_followers_count := lf.length
          new_following_count := ng.length
          unfollowed_count := uf.length
          net_follower_change := (nf.length : Int) - (lf.length : Int)
          net_following_change := (ng.length : Int) - (uf.length : Int)
          previous_report_date := last.generated_at } }

/-- The environment one daily run (`InstagramFollower.run` in `main.py`)
reads from the store and the network: the stored report with the target
`generated_at` (if any), the most recent stored report, and the two lists
the fetches would return. -/
structure RunEnv where
  existing : Option Report
  last_report : Option Report
  followers : List User
  following : List User
  deriving Repr

/-- What one daily run returns and does: the value returned by `run`, the
number of follower/following fetches performed, and the reports written to
the store (in order). -/
structure RunResult where
  returned : Option Report
  fetches : Nat
  saves : List Report
  deriving DecidableEq, Repr

/-- `InstagramFollower.run` in `main.py`: when a report with the target
`generated_at` exists and neither `FORCE_RUN` nor `DRY_RUN` is set, print
and return (the Python function returns `None`); otherwise fetch both
lists, build the report (which saves itself), and when a previous report
exists run the delta engine (which saves again).  `run` returns `None` on
every path. -/
def run (env : RunEnv) (force_run dry_run : Bool) (t : Nat) (fresh : Nat) :
    RunResult :=
  if env.existing.isSome ∧ force_run = false ∧ dry_run = false then
    { returned := none, fetches := 0, saves := [] }
  else
    let report := generate_report_cli env.followers env.following t fresh
    match env.last_report with
    | some last =>
      let report2 := analyse_reports report (some last)
      { returned := none, fetches := 2, saves := [report, report2] }
    | none =>
      { returned := none, fetches := 2, saves := [report] }

/-- A stored profile cache document (`UserProfileCache` in
`models/user_profile_cache.py`); timestamps are integers. -/
structure CacheEntry where
  id : String
  username : String
  full_name : String
  profile_pic_url : String
  followers_count : Nat
  following_count : Nat
  media_count : Nat
  expire_at : Int
  deriving DecidableEq, Repr

/-- `UserProfileCache.find_by_username`: `find_one({"username": username})`
on the collection — the first stored document with the username.  The
current time is a parameter to make the (absent) expiry check statable: the
source performs no comparison with `expire_at` on read. -/
def find_by_username (store : List CacheEntry) (username : String)
    (now : Int) : Option CacheEntry :=
  store.find? (fun e => e.username = username)

/-- `UserProfileCache.is_expired`: `expire_at < now`. -/
def is_expired (e : CacheEntry) (now : Int) : Bool :=
  e.expire_at < now

/-- The canonical tag list the builder produces for an id: `"follower"`
when the id occurs among the follower ids, then `"following"` when it
occurs among the following ids. -/
def canonType (fids gids : List String) (i : String) : List String :=
  (if i ∈ fids then ["follower"] else []) ++ (if i ∈ gids then ["following"] else [])

/-- The fully tagged entry the builder produces for a user. -/
def canonTagged (fids gids : List String) (u : User) : TaggedUser :=
  { id := u.id, username := u.username, full_name := u.full_name,
    profile_pic_url := u.profile_pic_url, type := canonType fids gids u.id }

theorem tagStep_mkTagged (fids gids : List String) (u : User) :
    tagStep fids gids (mkTagged u) = canonTagged fids gids u := by
  by_cases hf : u.id ∈ fids <;> by_cases hg : u.id ∈ gids <;>
    simp [tagStep, mkTagged, canonTagged, canonType, hf, hg]

set_option maxRecDepth 4000 in
theorem tagStep_of_canon (fids gids : List String) (tu : TaggedUser)
    (h : tu.type = canonType fids gids tu.id) :
    tagStep fids gids tu = tu := by
  obtain ⟨i, un, fn, pp, ty⟩ := tu
  simp only at h
  subst h
  by_cases hf : i ∈ fids <;> by_cases hg : i ∈ gids <;>
    simp [tagStep, canonType, hf, hg]

theorem any_id_eq_true_iff (acc : List TaggedUser) (i : String) :
    (acc.any (fun tu => tu.id = i) = true) ↔ i ∈ acc.map TaggedUser.id := by
  simp only [List.any_eq_true, decide_eq_true_eq, List.mem_map]

/-- Characterization of one builder-loop iteration on a working map whose
entries are already canonically tagged: it is either a no-op (id already
present) or appends the canonical entry for the new user. -/
theorem processUser_eq (fids gids : List String) (acc : List TaggedUser)
    (u : User) (h : ∀ tu ∈ acc, tu.type = canonType fids gids tu.id) :
    processUser fids gids acc u =
      if acc.any (fun tu => tu.id = u.id) then acc
      else acc ++ [canonTagged fids gids u] := by
  unfold processUser
  by_cases hmem : acc.any (fun tu => tu.id = u.id) = true
  · simp only [hmem, if_true]
    have : ∀ tu ∈ acc,
        (if tu.id = u.id then tagStep fids gids tu else tu) = tu := by
      intro tu htu
      by_cases hid : tu.id = u.id
      · simp [hid, tagStep_of_canon fids gids tu (h tu htu)]
      · simp [hid]
    rw [List.map_congr_left this]
    simp
  · simp only [Bool.not_eq_true] at hmem
    simp only [hmem, Bool.false_eq_true, if_false, List.map_append]
    have h2 : ∀ tu ∈ acc, ¬ (tu.id = u.id) := by
      intro tu htu
      have := List.any_eq_false.mp hmem tu htu
      simpa using this
    have : ∀ tu ∈ acc,
        (if tu.id = u.id then tagStep fids gids tu else tu) = tu := by
      intro tu htu
      simp [h2 tu htu]
    have hsing : List.map (fun tu => if tu.id = u.id then tagStep fids gids tu else tu)
        [mkTagged u] = [canonTagged fids gids u] := by
      show [if (mkTagged u).id = u.id then tagStep fids gids (mkTagged u) else mkTagged u] = _
      have hid : (mkTagged u).id = u.id := rfl
      rw [if_pos hid, tagStep_mkTagged]
    rw [List.map_congr_left this, hsing]
    simp

theorem processUser_canon (fids gids : List String) (acc : List TaggedUser)
    (u : User) (h : ∀ tu ∈ acc, tu.type = canonType fids gids tu.id) :
    ∀ tu ∈ processUser fids gids acc u, tu.type = canonType fids gids tu.id := by
  intro tu htu
  rw [processUser_eq fids gids acc u h] at htu
  rcases Bool.eq_false_or_eq_true (acc.any (fun tw => tw.id = u.id)) with hmem | hmem
  · simp only [hmem, if_true] at htu
    exact h tu htu
  · simp only [hmem, Bool.false_eq_true, if_false, List.mem_append,
      List.mem_singleton] at htu
    rcases htu with htu | rfl
    · exact h tu htu
    · rfl

theorem processUser_src (fids gids : List String) (acc : List TaggedUser)
    (u : User) (h : ∀ tu ∈ acc, tu.type = canonType fids gids tu.id) :
    ∀ tu ∈ processUser fids gids acc u,
      tu ∈ acc ∨ tu = canonTagged fids gids u := by
  intro tu htu
  rw [processUser_eq fids gids acc u h] at htu
  rcases Bool.eq_false_or_eq_true (acc.any (fun tw => tw.id = u.id)) with hmem | hmem
  · simp only [hmem, if_true] at htu
    exact Or.inl htu
  · simp only [hmem, Bool.false_eq_true, if_false, List.mem_append,
      List.mem_singleton] at htu
    exact htu

theorem processUser_ids_sub (fids gids : List String) (acc : List TaggedUser)
    (u : User) (h : ∀ tu ∈ acc, tu.type = canonType fids gids tu.id) :
    ∀ i ∈ acc.map TaggedUser.id,
      i ∈ (processUser fids gids acc u).map TaggedUser.id := by
  intro i hi
  rw [processUser_eq fids gids acc u h]
  rcases Bool.eq_false_or_eq_true (acc.any (fun tw => tw.id = u.id)) with hmem | hmem
  · simpa only [hmem, if_true] using hi
  · simp only [hmem, Bool.false_eq_true, if_false, List.map_append, List.mem_append]
    exact Or.inl hi

theorem processUser_id_mem (fids gids : List String) (acc : List TaggedUser)
    (u : User) (h : ∀ tu ∈ acc, tu.type = canonType fids gids tu.id) :
    u.id ∈ (processUser fids gids acc u).map TaggedUser.id := by
  rw [processUser_eq fids gids acc u h]
  rcases Bool.eq_false_or_eq_true (acc.any (fun tw => tw.id = u.id)) with hmem | hmem
  · simp only [hmem, if_true]
    exact (any_id_eq_true_iff acc u.id).mp hmem
  · simp only [hmem, Bool.false_eq_true, if_false, List.map_append, List.mem_append]
    right
    simp [canonTagged]

theorem processUser_nodup_ids (fids gids : List String) (acc : List TaggedUser)
    (u : User) (h : ∀ tu ∈ acc, tu.type = canonType fids gids tu.id)
    (hnd : (acc.map TaggedUser.id).Nodup) :
    ((processUser fids gids acc u).map TaggedUser.id).Nodup := by
  rw [processUser_eq fids gids acc u h]
  rcases Bool.eq_false_or_eq_true (acc.any (fun tw => tw.id = u.id)) with hmem | hmem
  · simpa only [hmem, if_true] using hnd
  · simp only [hmem, Bool.false_eq_true, if_false, List.map_append]
    have hnotin : u.id ∉ acc.map TaggedUser.id := by
      intro hcontra
      rw [← any_id_eq_true_iff acc u.id] at hcontra
      rw [hcontra] at hmem
      exact Bool.true_eq_false.mp hmem
    rw [List.nodup_append]
    refine ⟨hnd, List.nodup_singleton _, ?_⟩
    intro i hi hi2
    simp only [canonTagged, List.map_cons, List.map_nil, List.mem_singleton] at hi2
    subst hi2
    exact hnotin hi

/-- Every entry produced by folding the builder loop is canonically
tagged. -/
theorem foldl_canon (fids gids : List String) :
    ∀ (us : List User) (acc : List TaggedUser),
      (∀ tu ∈ acc, tu.type = canonType fids gids tu.id) →
      ∀ tu ∈ us.foldl (processUser fids gids) acc,
        tu.type = canonType fids gids tu.id := by
  intro us
  induction us with
  | nil =>
    intro acc h tu htu
    exact h tu htu
  | cons u us ih =>
    intro acc h tu htu
    rw [List.foldl_cons] at htu
    exact ih (processUser fids gids acc u) (processUser_canon fids gids acc u h) tu htu

/-- Every entry produced by folding the builder loop either was already in
the accumulator or is the canonical entry for one of the processed users. -/
theorem foldl_src (fids gids : List String) :
    ∀ (us : List User) (acc : List TaggedUser),
      (∀ tu ∈ acc, tu.type = canonType fids gids tu.id) →
      ∀ tu ∈ us.foldl (processUser fids gids) acc,
        tu ∈ acc ∨ ∃ u, u ∈ us ∧ tu = canonTagged fids gids u := by
  intro us
  induction us with
  | nil =>
    intro acc h tu htu
    exact Or.inl htu
  | cons u us ih =>
    intro acc h tu htu
    rw [List.foldl_cons] at htu
    rcases ih (processUser fids gids acc u) (processUser_canon fids gids acc u h)
        tu htu with hacc | ⟨v, hv, rfl⟩
    · rcases processUser_src fids gids acc u h tu hacc with hacc2 | rfl
      · exact Or.inl hacc2
      · exact Or.inr ⟨u, List.mem_cons_self u us, rfl⟩
    · exact Or.inr ⟨v, List.mem_cons_of_mem u hv, rfl⟩

/-- Folding the builder loop preserves accumulator ids. -/
theorem foldl_ids_sub (fids gids : List String) :
    ∀ (us : List User) (acc : List TaggedUser),
      (∀ tu ∈ acc, tu.type = canonType fids gids tu.id) →
      ∀ i ∈ acc.map TaggedUser.id,
        i ∈ (us.foldl (processUser fids gids) acc).map TaggedUser.id := by
  intro us
  induction us with
  | nil =>
    intro acc h i hi
    exact hi
  | cons u us ih =>
    intro acc h i hi
    rw [List.foldl_cons]
    exact ih (processUser fids gids acc u) (processUser_canon fids gids acc u h) i
      (processUser_ids_sub fids gids acc u h i hi)

/-- Every processed user's id occurs among the ids of the folded result. -/
theorem foldl_mem_ids (fids gids : List String) :
    ∀ (us : List User) (acc : List TaggedUser),
      (∀ tu ∈ acc, tu.type = canonType fids gids tu.id) →
      ∀ u ∈ us, u.id ∈ (us.foldl (processUser fids gids) acc).map TaggedUser.id := by
  intro us
  induction us with
  | nil =>
    intro acc h u hu
    exact absurd hu (List.not_mem_nil u)
  | cons v us ih =>
    intro acc h u hu
    rw [List.foldl_cons]
    rcases List.mem_cons.mp hu with rfl | hu2
    · exact foldl_ids_sub fids gids us (processUser fids gids acc u)
        (processUser_canon fids gids acc u h) u.id
        (processUser_id_mem fids gids acc u h)
    · exact ih (processUser fids gids acc v) (processUser_canon fids gids acc v h) u hu2

/-- Folding the builder loop keeps the id list duplicate-free. -/
theorem foldl_nodup (fids gids : List String) :
    ∀ (us : List User) (acc : List TaggedUser),
      (∀ tu ∈ acc, tu.type = canonType fids gids tu.id) →
      (acc.map TaggedUser.id).Nodup →
      ((us.foldl (processUser fids gids) acc).map TaggedUser.id).Nodup := by
  intro us
  induction us with
  | nil =>
    intro acc h hnd
    exact hnd
  | cons u us ih =>
    intro acc h hnd
    rw [List.foldl_cons]
    exact ih (processUser fids gids acc u) (processUser_canon fids gids acc u h)
      (processUser_nodup_ids fids gids acc u h hnd)

theorem follower_mem_canonType (fids gids : List String) (i : String) :
    "follower" ∈ canonType fids gids i ↔ i ∈ fids := by
  by_cases hf : i ∈ fids <;> by_cases hg : i ∈ gids <;> simp [canonType, hf, hg]

theorem following_mem_canonType (fids gids : List String) (i : String) :
    "following" ∈ canonType fids gids i ↔ i ∈ gids := by
  by_cases hf : i ∈ fids <;> by_cases hg : i ∈ gids <;> simp [canonType, hf, hg]

theorem canonType_subset (fids gids : List String) (i : String) :
    ∀ s ∈ canonType fids gids i, s = "follower" ∨ s = "following" := by
  intro s hs
  by_cases hf : i ∈ fids <;> by_cases hg : i ∈ gids <;>
    simp [canonType, hf, hg] at hs <;> tauto

theorem canonType_nodup (fids gids : List String) (i : String) :
    (canonType fids gids i).Nodup := by
  by_cases hf : i ∈ fids <;> by_cases hg : i ∈ gids <;> simp [canonType, hf, hg]

theorem canonType_ne_nil (fids gids : List String) (i : String)
    (h : i ∈ fids ∨ i ∈ gids) : canonType fids gids i ≠ [] := by
  rcases h with hf | hg
  · by_cases hg : i ∈ gids <;> simp [canonType, hf, hg]
  · by_cases hf : i ∈ fids <;> simp [canonType, hf, hg]

/-- Every entry of the built user list is canonically tagged. -/
theorem build_users_canon (F G : List User) :
    ∀ tu ∈ build_users F G,
      tu.type = canonType (F.map User.id) (G.map User.id) tu.id := by
  intro tu htu
  refine foldl_canon _ _ (F ++ G) [] ?_ tu htu
  intro tv htv
  exact absurd htv (List.not_mem_nil tv)

/-- C1: every user of the built report is tagged `"follower"` exactly when
its id occurs among the follower ids, and `"following"` exactly when it
occurs among the following ids. -/
theorem tag_membership_correct (F G : List User) (t : Nat) :
    ∀ tu ∈ (generate_report F G t).users,
      ("follower" ∈ tu.type ↔ tu.id ∈ F.map User.id) ∧
      ("following" ∈ tu.type ↔ tu.id ∈ G.map User.id) := by
  intro tu htu
  have hcanon := build_users_canon F G tu htu
  rw [hcanon]
  exact ⟨follower_mem_canonType _ _ _, following_mem_canonType _ _ _⟩

/-- Fixture follower/following user for witnesses. -/
def uA : User :=
  { id := "a", username := "ua", full_name := "A", profile_pic_url := "" }

/-- The canonical tagged entry built for `uA` when it is both follower and
following. -/
def tuA : TaggedUser :=
  { id := "a", username := "ua", full_name := "A", profile_pic_url := "",
    type := ["follower", "following"] }

/-- Witness for C1 at the one-user fixture. -/
theorem tag_membership_correct_witness :
    ("follower" ∈ tuA.type ↔ tuA.id ∈ [uA].map User.id) ∧
    ("following" ∈ tuA.type ↔ tuA.id ∈ [uA].map User.id) :=
  tag_membership_correct [uA] [uA] 0 tuA (by decide)

/-- C10: every user of the built report carries a non-empty, duplicate-free
tag list drawn from the two relationship tags. -/
theorem type_list_wellformed (F G : List User) (t : Nat) :
    ∀ tu ∈ (generate_report F G t).users,
      tu.type ≠ [] ∧ (∀ s ∈ tu.type, s = "follower" ∨ s = "following") ∧
      tu.type.Nodup := by
  intro tu htu
  have hsrc : tu ∈ ([] : List TaggedUser) ∨
      ∃ u, u ∈ F ++ G ∧ tu = canonTagged (F.map User.id) (G.map User.id) u := by
    refine foldl_src _ _ (F ++ G) [] ?_ tu htu
    intro tv htv
    exact absurd htv (List.not_mem_nil tv)
  rcases hsrc with habs | ⟨u, hu, rfl⟩
  · exact absurd habs (List.not_mem_nil tu)
  · have hmem : u.id ∈ F.map User.id ∨ u.id ∈ G.map User.id := by
      rcases List.mem_append.mp hu with h1 | h1
      · exact Or.inl (List.mem_map.mpr ⟨u, h1, rfl⟩)
      · exact Or.inr (List.mem_map.mpr ⟨u, h1, rfl⟩)
    exact ⟨canonType_ne_nil _ _ _ hmem, canonType_subset _ _ _, canonType_nodup _ _ _⟩

/-- Witness for C10 at the one-user fixture. -/
theorem type_list_wellformed_witness :
    tuA.type ≠ [] ∧ ("follower" = "follower" ∨ "follower" = "following") ∧
    tuA.type.Nodup :=
  ⟨(type_list_wellformed [uA] [uA] 0 tuA (by decide)).1,
   (type_list_wellformed [uA] [uA] 0 tuA (by decide)).2.1 "follower" (by decide),
   (type_list_wellformed [uA] [uA] 0 tuA (by decide)).2.2⟩

/-- In a list of tagged users with duplicate-free ids, an id that occurs at
all selects exactly one entry. -/
theorem filter_id_length_one (l : List TaggedUser) (i : String)
    (hnd : (l.map TaggedUser.id).Nodup) (hex : i ∈ l.map TaggedUser.id) :
    (l.filter (fun tu => tu.id = i)).length = 1 := by
  induction l with
  | nil => simp at hex
  | cons a l ih =>
    simp only [List.map_cons, List.nodup_cons] at hnd
    rcases List.mem_cons.mp hex with heq | hmem
    · have hnil : l.filter (fun tu => tu.id = i) = [] := by
        refine List.filter_eq_nil_iff.mpr ?_
        intro tv htv
        simp only [decide_eq_true_eq]
        intro hcontra
        exact hnd.1 (heq ▸ hcontra ▸ List.mem_map.mpr ⟨tv, htv, rfl⟩)
      have hhead : (decide (a.id = i)) = true := by
        simp [heq]
      simp [List.filter_cons, hhead, hnil]
    · have hne : (decide (a.id = i)) = false := by
        simp only [decide_eq_false_iff_not]
        intro hcontra
        exact hnd.1 (hcontra ▸ hmem)
      simp only [List.filter_cons, hne, Bool.false_eq_true, if_false]
      exact ih hnd.2 hmem

/-- C3: the built report's user list has duplicate-free ids, and an id
present in both inputs selects exactly one entry, which carries both
tags. -/
theorem users_nodup_mutual_once (F G : List User) (t : Nat) :
    ((generate_report F G t).users.map TaggedUser.id).Nodup ∧
    ∀ i, i ∈ F.map User.id → i ∈ G.map User.id →
      ((generate_report F G t).users.filter (fun tu => tu.id = i)).length = 1 ∧
      ∀ tu ∈ (generate_report F G t).users, tu.id = i →
        "follower" ∈ tu.type ∧ "following" ∈ tu.type := by
  have haccnil : ∀ tv ∈ ([] : List TaggedUser),
      tv.type = canonType (F.map User.id) (G.map User.id) tv.id := by
    intro tv htv
    exact absurd htv (List.not_mem_nil tv)
  have hnd : ((generate_report F G t).users.map TaggedUser.id).Nodup :=
    foldl_nodup _ _ (F ++ G) [] haccnil List.nodup_nil
  refine ⟨hnd, ?_⟩
  intro i hiF hiG
  obtain ⟨u, huF, huid⟩ := List.mem_map.mp hiF
  have hu : u ∈ F ++ G := List.mem_append.mpr (Or.inl huF)
  have hex : i ∈ ((generate_report F G t).users.map TaggedUser.id) :=
    huid ▸ foldl_mem_ids _ _ (F ++ G) [] haccnil u hu
  refine ⟨filter_id_length_one _ i hnd hex, ?_⟩
  intro tu htu hid
  have hcanon := build_users_canon F G tu htu
  rw [hcanon, hid, follower_mem_canonType, following_mem_canonType]
  exact ⟨hiF, hiG⟩

/-- Witness for C3 at the one-user fixture. -/
theorem users_nodup_mutual_once_witness :
    ((generate_report [uA] [uA] 0).users.filter (fun tu => tu.id = "a")).length = 1 ∧
    ("follower" ∈ tuA.type ∧ "following" ∈ tuA.type) :=
  ⟨((users_nodup_mutual_once [uA] [uA] 0).2 "a" (by decide) (by decide)).1,
   ((users_nodup_mutual_once [uA] [uA] 0).2 "a" (by decide) (by decide)).2
     tuA (by decide) (by decide)⟩

/-- C2: after the delta engine runs against a previous report, new and lost
followers are disjoint, and the current follower-id set is the previous one
minus the lost ids, together with the new ids. -/
theorem follower_delta_partition (cur prev : Report) :
    ((analyse_reports cur (some prev)).new_followers.toFinset ∩
      (analyse_reports cur (some prev)).lost_followers.toFinset = ∅) ∧
    (get_user_ids_by_type cur "follower").toFinset =
      ((get_user_ids_by_type prev "follower").toFinset \
        (analyse_reports cur (some prev)).lost_followers.toFinset) ∪
      (analyse_reports cur (some prev)).new_followers.toFinset := by
  constructor
  · ext i
    simp only [analyse_reports, Finset.mem_inter, List.mem_toFinset, List.mem_filter,
      decide_eq_true_eq, Finset.not_mem_empty, iff_false, not_and]
    tauto
  · ext i
    simp only [analyse_reports, Finset.mem_union, Finset.mem_sdiff, List.mem_toFinset,
      List.mem_filter, decide_eq_true_eq]
    tauto

/-- C4: the stats block written by the delta engine agrees with the four
delta sequences, and the two net changes are the differences of the
counts. -/
theorem stats_consistent (cur prev : Report) :
    ∃ s, (analyse_reports cur (some prev)).stats = some s ∧
      s.new_followers_count = (analyse_reports cur (some prev)).new_followers.length ∧
      s.lost_followers_count = (analyse_reports cur (some prev)).lost_followers.length ∧
      s.new_following_count = (analyse_reports cur (some prev)).new_following.length ∧
      s.unfollowed_count = (analyse_reports cur (some prev)).unfollowed.length ∧
      s.net_follower_change =
        (s.new_followers_count : Int) - (s.lost_followers_count : Int) ∧
      s.net_following_change =
        (s.new_following_count : Int) - (s.unfollowed_count : Int) :=
  ⟨_, rfl, rfl, rfl, rfl, rfl, rfl, rfl⟩

/-- C5: with no previous report the delta engine returns the report
untouched, and a freshly built report has empty delta sequences and an
empty stats dict; no error is possible. -/
theorem first_report_terminal (r : Report) (F G : List User) (t : Nat) :
    analyse_reports r none = r ∧
    (generate_report F G t).new_followers = [] ∧
    (generate_report F G t).lost_followers = [] ∧
    (generate_report F G t).new_following = [] ∧
    (generate_report F G t).unfollowed = [] ∧
    (generate_report F G t).stats = none :=
  ⟨rfl, rfl, rfl, rfl, rfl, rfl⟩

/-- A concrete stored report for the run-guard statements. -/
def storedReport : Report :=
  { id := "stored", generated_at := 7, num_followers := 0, num_following := 0,
    users := [], new_followers := [], lost_followers := [], new_following := [],
    unfollowed := [], stats := none }

/-- C6 counterexample: with a stored report for the target day and the force
flag false (dry-run also false), `run` performs no fetch and writes nothing,
but returns `None` — not the existing stored report. -/
theorem run_guard_does_not_return_report :
    (run { existing := some storedReport, last_report := none, followers := [],
           following := [] } false false 7 0).returned ≠ some storedReport ∧
    (run { existing := some storedReport, last_report := none, followers := [],
           following := [] } false false 7 0).fetches = 0 ∧
    (run { existing := some storedReport, last_report := none, followers := [],
           following := [] } false false 7 0).saves = [] := by
  refine ⟨?_, rfl, rfl⟩
  intro h
  have : (none : Option Report) = some storedReport := h
  exact Option.noConfusion this

/-- C6 amended: when a report for the target day exists and both the force
and dry-run flags are false, the run fetches nothing, saves nothing, and
returns `None` (the existing report is left in place but not returned). -/
theorem run_guard_no_fetch_no_save (env : RunEnv) (force_run dry_run : Bool)
    (t fresh : Nat) (hex : env.existing.isSome = true)
    (hf : force_run = false) (hd : dry_run = false) :
    run env force_run dry_run t fresh =
      { returned := none, fetches := 0, saves := [] } := by
  unfold run
  rw [if_pos ⟨hex, hf, hd⟩]

/-- Witness for the amended C6 at a concrete environment. -/
theorem run_guard_no_fetch_no_save_witness :
    run { existing := some storedReport, last_report := none, followers := [],
          following := [] } false false 7 0 =
      { returned := none, fetches := 0, saves := [] } :=
  run_guard_no_fetch_no_save _ false false 7 0 rfl rfl rfl

/-- A follower-tagged user record with an empty id. -/
def ghostUser : TaggedUser :=
  { id := "", username := "ghost", full_name := "", profile_pic_url := "",
    type := ["follower"] }

/-- A report whose only user is the identifier-less `ghostUser`. -/
def ghostReport : Report :=
  { id := "g", generated_at := 8, num_followers := 1, num_following := 0,
    users := [ghostUser], new_followers := [], lost_followers := [],
    new_following := [], unfollowed := [], stats := none }

/-- C7 counterexample: diffing a report whose only follower has an empty id
against an empty previous report completes normally (stats are written) and
yields no new follower — the identifier-less record is silently dropped
from the delta sets instead of failing the run. -/
theorem empty_id_silently_dropped :
    ghostUser ∈ ghostReport.users ∧ "follower" ∈ ghostUser.type ∧
    (analyse_reports ghostReport (some storedReport)).new_followers = [] ∧
    (analyse_reports ghostReport (some storedReport)).stats =
      some { new_followers_count := 0, lost_followers_count := 0,
             new_following_count := 0, unfollowed_count := 0,
             net_follower_change := 0, net_following_change := 0,
             previous_report_date := 7 } := by
  refine ⟨by decide, by decide, ?_, ?_⟩ <;> rfl

/-- `get_user_ids_by_type` never yields the empty id. -/
theorem empty_id_not_in_ids (r : Report) (ty : String) :
    "" ∉ get_user_ids_by_type r ty := by
  intro h
  simp only [get_user_ids_by_type, List.mem_dedup, List.mem_map,
    List.mem_filter, decide_eq_true_eq] at h
  obtain ⟨u, ⟨_, hne⟩, heq⟩ := h
  exact hne heq

/-- C7 amended: an identifier-less user record is never fatal: the delta
engine totally computes a report in which the record is kept in `users` but
silently excluded from all four delta id sequences. -/
theorem empty_id_never_in_deltas (cur prev : Report) :
    (analyse_reports cur (some prev)).users = cur.users ∧
    "" ∉ (analyse_reports cur (some prev)).new_followers ∧
    "" ∉ (analyse_reports cur (some prev)).lost_followers ∧
    "" ∉ (analyse_reports cur (some prev)).new_following ∧
    "" ∉ (analyse_reports cur (some prev)).unfollowed := by
  refine ⟨rfl, ?_, ?_, ?_, ?_⟩ <;>
  · intro h
    exact empty_id_not_in_ids _ _ (List.mem_of_mem_filter h)

/-- A cache entry already expired at the times used below. -/
def staleEntry : CacheEntry :=
  { id := "42", username := "bob", full_name := "Bob", profile_pic_url := "",
    followers_count := 0, following_count := 0, media_count := 0,
    expire_at := 0 }

/-- C8 counterexample: at time 5 the lookup still returns the entry whose
`expire_at` (0) has passed — `find_by_username` performs no expiry check, so
a stale entry is not treated as absent. -/
theorem expired_entry_still_returned :
    find_by_username [staleEntry] "bob" 5 = some staleEntry ∧
    is_expired staleEntry 5 = true := by
  constructor <;> rfl

/-- C8 amended: the cache lookup returns the first stored entry with the
requested username, independently of the current time; expiry is never
consulted on read (stale removal is delegated to the store's TTL index). -/
theorem find_by_username_ignores_expiry (store : List CacheEntry)
    (username : String) (now now2 : Int) :
    find_by_username store username now = find_by_username store username now2 ∧
    ∀ e, find_by_username store username now = some e →
      e ∈ store ∧ e.username = username := by
  refine ⟨rfl, ?_⟩
  intro e he
  refine ⟨List.mem_of_find?_eq_some he, ?_⟩
  have := List.find?_some he
  simpa using this

/-- Witness for the amended C8 at a concrete store. -/
theorem find_by_username_ignores_expiry_witness :
    find_by_username [staleEntry] "bob" 5 = find_by_username [staleEntry] "bob" (-3) ∧
    (staleEntry ∈ [staleEntry] ∧ staleEntry.username = "bob") :=
  ⟨(find_by_username_ignores_expiry [staleEntry] "bob" 5 (-3)).1,
   (find_by_username_ignores_expiry [staleEntry] "bob" 5 (-3)).2 staleEntry (by decide)⟩

/-- C9 counterexample: two CLI-built reports for the same `generated_at` but
distinct ObjectId draws carry different ids — the CLI report id is not a
function of `generated_at`. -/
theorem cli_report_id_not_deterministic :
    (generate_report_cli [] [] 7 1).generated_at =
      (generate_report_cli [] [] 7 2).generated_at ∧
    (generate_report_cli [] [] 7 1).id ≠ (generate_report_cli [] [] 7 2).id := by
  refine ⟨rfl, ?_⟩
  decide

/-- C9 amended: the web builder derives the report id deterministically from
`generated_at` (`_id = str(generated_at)`), so two web reports for the same
timestamp share one id; the CLI builder instead draws a fresh ObjectId. -/
theorem web_report_id_deterministic (F G F2 G2 : List User) (t : Nat) :
    (generate_report F G t).id = toString t ∧
    (generate_report F G t).id = (generate_report F2 G2 t).id :=
  ⟨rfl, rfl⟩

end Insta
